import Mathlib

/-
  Shallow embedding of examples/scope/scope.py from ingenialink-python.

  The embedded core is the scope window state machine (Axis Supervisor),
  the homing runner (Homing Worker), and the telemetry buffer update
  performed on each plot-timer tick (Telemetry Pump acting on the
  Sample Buffer).  Device, poller and timer operations are modelled by
  an oracle assigning to each operation either success (none) or a
  raised exception message (some msg), matching the Python code where
  any such call may raise.
-/

/-- Constant N_SAMPLES of ScopeWindow (number of samples, default 1000). -/
def N_SAMPLES : Nat := 1000

/-- Constant POLLER_T_S of ScopeWindow (poller sampling period, ms). -/
def POLLER_T_S : Nat := 10

/-- Constant POLLER_BUF_SZ of ScopeWindow (poller buffer size). -/
def POLLER_BUF_SZ : Nat := 100

/-- Constant HOMING_TIMEOUT of ScopeWindow (default homing timeout, ms). -/
def HOMING_TIMEOUT : Nat := 150000

/-- One telemetry sample: a timestamp (seconds) and a value, both exact
rationals standing for the floating point numbers of the source. -/
structure Sample where
  t : ℚ
  v : ℚ
deriving DecidableEq

/-- Ceiling of a rational. -/
def ratCeil (q : ℚ) : ℤ := Int.ceil q

/-- Model of numpy.arange(start, stop, step) for a positive step: the
list start + n * step for n below ceil((stop - start) / step). -/
def arange (start stop step : ℚ) : List ℚ :=
  (List.range (ratCeil ((stop - start) / step)).toNat).map
    (fun (n : Nat) => start + (n : ℚ) * step)

/-- Time axis primed by ScopeWindow.enableScope:
np.arange(-N_SAMPLES * POLLER_T_S / 1000, 0, POLLER_T_S / 1000). -/
def primedTime : List ℚ :=
  arange (-((N_SAMPLES : ℚ) * (POLLER_T_S : ℚ) / 1000)) 0 ((POLLER_T_S : ℚ) / 1000)

/-- Value column primed by ScopeWindow.enableScope: np.zeros(N_SAMPLES). -/
def primedData : List ℚ :=
  List.replicate N_SAMPLES 0

/-- Sample Buffer right after enableScope primes it.  The source keeps
the two parallel arrays _time and _data, always rolled and overwritten
with index-aligned batches of equal length, so they are modelled as one
list of samples: each primed time entry is paired with the zero value
np.zeros puts at the same index. -/
def primedBuffer : List Sample :=
  primedTime.map (fun t => { t := t, v := 0 })

/-- Model of np.roll(xs, -s): the first s entries move to the end. -/
def npRollNeg (xs : List Sample) (s : Nat) : List Sample :=
  xs.drop s ++ xs.take s

/-- Model of the numpy slice assignment xs[-len(ys):] = ys for
len(ys) at most len(xs): the last len(ys) entries are overwritten. -/
def assignLast (xs ys : List Sample) : List Sample :=
  xs.take (xs.length - ys.length) ++ ys

/-- Body of ScopeWindow.on_timerPlotUpdate_expired acting on the Sample
Buffer: if the drained batch is nonempty, roll the buffer left by the
batch size and overwrite the tail with the batch; otherwise no change. -/
def pumpTick (buf : List Sample) (drained : List Sample) : List Sample :=
  if drained.length = 0 then buf
  else assignLast (npRollNeg buf drained.length) drained

/-- States of ScopeWindow (stateInit, stateIdle, stateHoming,
statePosition, stateVelocity). -/
inductive AxisState
  | init
  | idle
  | homing
  | position
  | velocity
deriving DecidableEq, BEq

/-- Device, poller and pump-timer operations invoked by the scope
window and the homing runner. -/
inductive DevOp
  | setModeHoming
  | setModePP
  | setModePV
  | setUnitsPosDeg
  | setUnitsVelRps
  | enable
  | disable
  | homingStart
  | homingWait
  | pollerStart
  | pollerStop
  | pumpStart
  | pumpStop
deriving DecidableEq, BEq

/-- Failure oracle: for each operation, none means the call returns
normally and some msg means the call raises an exception with that
message. -/
abbrev Oracle := DevOp → Option String

/-- Oracle under which every device operation succeeds. -/
def okDev : Oracle := fun _ => none

/-- Supervisor state of ScopeWindow relevant to the claims: the current
machine state, the homing status label, and the chronological trace of
device, poller and pump operations invoked so far. -/
structure SupState where
  state : AxisState
  label : String
  ops : List DevOp
deriving DecidableEq

/-- Supervisor state at startup: the constructor runs setState(stateInit)
then setState(stateIdle), so the session starts in idle with no device
operation issued yet. -/
def initSup : SupState := { state := AxisState.idle, label := "", ops := [] }

/-- Invoke one operation: the call is recorded in the trace and the
oracle decides whether it raises. -/
def callOp (d : Oracle) (op : DevOp) (s : SupState) : SupState × Option String :=
  ({ s with ops := s.ops ++ [op] }, d op)

/-- Sequencing with Python exception semantics inside a handler without
try/except: once a call has raised, the rest of the handler body is
skipped and the exception keeps propagating. -/
def chainOk (r : SupState × Option String) (f : SupState → SupState × Option String) :
    SupState × Option String :=
  match r with
  | (s, none) => f s
  | (s, some e) => (s, some e)

/-- Model of ScopeWindow.setState restricted to the embedded fields: it
records the new machine state (widget updates are outside the model). -/
def setState (st : AxisState) (s : SupState) : SupState × Option String :=
  ({ s with state := st }, none)

/-- ScopeWindow.enableScope: builds the poller, primes the buffers, then
starts the plot update timer (the pump) and only afterwards starts the
poller, in that order. -/
def enableScope (d : Oracle) (s : SupState) : SupState × Option String :=
  chainOk (callOp d DevOp.pumpStart s) (callOp d DevOp.pollerStart)

/-- ScopeWindow.disableScope: stops the poller first, then stops the
plot update timer (the pump), in that order. -/
def disableScope (d : Oracle) (s : SupState) : SupState × Option String :=
  chainOk (callOp d DevOp.pollerStop s) (callOp d DevOp.pumpStop)

/-- ScopeWindow.on_btnHoming_clicked: sets the state to homing and
spawns the homing thread; the handler itself checks no precondition and
issues no device call on the command-processing context. -/
def on_btnHoming_clicked (s : SupState) : SupState × Option String :=
  setState AxisState.homing s

/-- ScopeWindow.onHomingFinished: shows the result in the homing status
label and sets the state to idle, with no guard on the current state and
no device call. -/
def onHomingFinished (result : String) (s : SupState) : SupState × Option String :=
  setState AxisState.idle { s with label := result }

/-- ScopeWindow.on_btnPosition_clicked: from idle, set profile position
mode, set degree units, enable the device, enable the scope and go to
statePosition; from any other state, disable the scope, disable the
device and go back to idle.  No try/except surrounds the body. -/
def on_btnPosition_clicked (d : Oracle) (s : SupState) : SupState × Option String :=
  if s.state = AxisState.idle then
    chainOk (callOp d DevOp.setModePP s) (fun s1 =>
      chainOk (callOp d DevOp.setUnitsPosDeg s1) (fun s2 =>
        chainOk (callOp d DevOp.enable s2) (fun s3 =>
          chainOk (enableScope d s3) (setState AxisState.position))))
  else
    chainOk (disableScope d s) (fun s1 =>
      chainOk (callOp d DevOp.disable s1) (setState AxisState.idle))

/-- ScopeWindow.on_btnVelocity_clicked: symmetric to the position
handler with profile velocity mode, rps units and stateVelocity. -/
def on_btnVelocity_clicked (d : Oracle) (s : SupState) : SupState × Option String :=
  if s.state = AxisState.idle then
    chainOk (callOp d DevOp.setModePV s) (fun s1 =>
      chainOk (callOp d DevOp.setUnitsVelRps s1) (fun s2 =>
        chainOk (callOp d DevOp.enable s2) (fun s3 =>
          chainOk (enableScope d s3) (setState AxisState.velocity))))
  else
    chainOk (disableScope d s) (fun s1 =>
      chainOk (callOp d DevOp.disable s1) (setState AxisState.idle))

/-- Message emitted by the homing runner on success. -/
def finishedMsg : String := "Finished"

/-- Tag prepended by the homing runner to exception messages. -/
def errorTag : String := "Error: "

/-- HomingRunner.run: first try block sets homing mode and enables the
device, emitting an error message if either raises; the body then falls
through (there is no return) to the second try block, which starts
homing, waits for completion, and emits Finished, emitting an error
message if either raises; the finally clause disables the device.
Result: the list of emitted finished-signal payloads in order, and the
chronological list of device calls attempted. -/
def runnerRun (d : Oracle) : List String × List DevOp :=
  let first :=
    match d DevOp.setModeHoming with
    | some e => ([errorTag ++ e], [DevOp.setModeHoming])
    | none =>
      match d DevOp.enable with
      | some e => ([errorTag ++ e], [DevOp.setModeHoming, DevOp.enable])
      | none => (([] : List String), [DevOp.setModeHoming, DevOp.enable])
  let second :=
    match d DevOp.homingStart with
    | some e => ([errorTag ++ e], [DevOp.homingStart])
    | none =>
      match d DevOp.homingWait with
      | some e => ([errorTag ++ e], [DevOp.homingStart, DevOp.homingWait])
      | none => ([finishedMsg], [DevOp.homingStart, DevOp.homingWait])
  (first.1 ++ second.1, first.2 ++ second.2 ++ [DevOp.disable])

/-- Whole homing run seen from the supervisor: the homing button click
sets the state to homing; every payload the runner emits is delivered to
onHomingFinished in order. -/
def homingRun (d : Oracle) (s : SupState) : SupState :=
  let s1 := (on_btnHoming_clicked s).1
  ((runnerRun d).1).foldl (fun st m => (onHomingFinished m st).1) s1

/-- User-facing commands of the supervisor. -/
inductive ScopeCmd
  | requestHoming
  | togglePC
  | toggleVC
  | homingComplete (msg : String)

/-- Dispatch one command to the handler the source connects it to. -/
def dispatchCmd (d : Oracle) (s : SupState) (c : ScopeCmd) : SupState × Option String :=
  match c with
  | ScopeCmd.requestHoming => on_btnHoming_clicked s
  | ScopeCmd.togglePC => on_btnPosition_clicked d s
  | ScopeCmd.toggleVC => on_btnVelocity_clicked d s
  | ScopeCmd.homingComplete m => onHomingFinished m s

/-- Run a command sequence through the handlers. -/
def execCmds (d : Oracle) (cmds : List ScopeCmd) (s : SupState) : SupState :=
  cmds.foldl (fun st c => (dispatchCmd d st c).1) s

/-- Modelled from the spec: the transition table of section 4.1 of the
spec (state times command to next state, all other pairs leaving the
state unchanged).  This definition follows the words of the spec and is
compared against the handler semantics above for the refinement claim. -/
def specStep (s : AxisState) (c : ScopeCmd) : AxisState :=
  match s, c with
  | AxisState.idle, ScopeCmd.requestHoming => AxisState.homing
  | AxisState.idle, ScopeCmd.togglePC => AxisState.position
  | AxisState.idle, ScopeCmd.toggleVC => AxisState.velocity
  | AxisState.homing, ScopeCmd.homingComplete _ => AxisState.idle
  | AxisState.position, ScopeCmd.togglePC => AxisState.idle
  | AxisState.velocity, ScopeCmd.toggleVC => AxisState.idle
  | st, _ => st

/-- Transition table actually implemented by the handlers when every
device operation succeeds: the homing click always goes to homing, each
toggle goes to its control state from idle and back to idle from every
other state, and homing completion always goes to idle. -/
def codeStep (s : AxisState) (c : ScopeCmd) : AxisState :=
  match c with
  | ScopeCmd.requestHoming => AxisState.homing
  | ScopeCmd.togglePC => if s = AxisState.idle then AxisState.position else AxisState.idle
  | ScopeCmd.toggleVC => if s = AxisState.idle then AxisState.velocity else AxisState.idle
  | ScopeCmd.homingComplete _ => AxisState.idle

/-- Helper: the arange count used by enableScope evaluates to
N_SAMPLES, the exact-arithmetic counterpart of the numpy length
ceil((stop - start) / step). -/
lemma arange_count :
    (ratCeil (((0:ℚ) - (-((N_SAMPLES : ℚ) * (POLLER_T_S : ℚ) / 1000))) /
      ((POLLER_T_S : ℚ) / 1000))).toNat = N_SAMPLES := by
  have h : ((0:ℚ) - (-((N_SAMPLES : ℚ) * (POLLER_T_S : ℚ) / 1000))) /
      ((POLLER_T_S : ℚ) / 1000) = 1000 := by
    norm_num [N_SAMPLES, POLLER_T_S]
  rw [ratCeil, h]
  norm_num [N_SAMPLES]
  rfl

/-- Helper: the primed time axis has exactly N_SAMPLES entries. -/
lemma primedTime_length : primedTime.length = N_SAMPLES := by
  rw [primedTime, arange, List.length_map, List.length_range]
  exact arange_count

/-- Helper: every primed time entry is negative. -/
lemma primedTime_neg : ∀ t ∈ primedTime, t < 0 := by
  intro t ht
  rw [primedTime, arange] at ht
  rcases List.mem_map.mp ht with ⟨i, hi, rfl⟩
  rw [List.mem_range, arange_count] at hi
  have hi2 : (i:ℚ) < 1000 := by exact_mod_cast (show i < 1000 from hi)
  simp only [N_SAMPLES, POLLER_T_S]
  push_cast
  linarith

/-- Helper: the primed Sample Buffer has exactly N_SAMPLES entries. -/
lemma primedBuffer_length : primedBuffer.length = N_SAMPLES := by
  rw [primedBuffer, List.length_map]
  exact primedTime_length

/-- Helper: a nonempty drained batch of size at most the buffer size is
appended after dropping that many oldest entries. -/
lemma pumpTick_drop_append (buf d : List Sample) (h0 : 0 < d.length)
    (h1 : d.length ≤ buf.length) :
    pumpTick buf d = buf.drop d.length ++ d := by
  unfold pumpTick
  rw [if_neg (Nat.pos_iff_ne_zero.mp h0)]
  unfold assignLast npRollNeg
  congr 1
  have hlen : (buf.drop d.length ++ buf.take d.length).length = buf.length := by
    simp only [List.length_append, List.length_drop, List.length_take]
    omega
  rw [hlen]
  have hdlen : (buf.drop d.length).length = buf.length - d.length :=
    List.length_drop _ _
  rw [← hdlen, List.take_left]

/-- Helper: pumpTick preserves the buffer length whenever the drained
batch is no longer than the buffer. -/
lemma pumpTick_length (buf d : List Sample) (h1 : d.length ≤ buf.length) :
    (pumpTick buf d).length = buf.length := by
  by_cases h0 : d.length = 0
  · simp [pumpTick, h0]
  · rw [pumpTick_drop_append buf d (Nat.pos_of_ne_zero h0) h1]
    simp only [List.length_append, List.length_drop]
    omega

/-- C7: the Sample Buffer has length exactly N_SAMPLES right after
enableScope primes it, the primed placeholders all carry negative
timestamps and zero values, and the length stays N_SAMPLES after any
sequence of pump ticks whose drained batches each hold at most
N_SAMPLES samples. -/
theorem sampleBuffer_length_invariant :
    primedBuffer.length = N_SAMPLES ∧
    (∀ x ∈ primedBuffer, x.t < 0 ∧ x.v = 0) ∧
    (∀ batches : List (List Sample),
      (∀ b ∈ batches, b.length ≤ N_SAMPLES) →
      (batches.foldl pumpTick primedBuffer).length = N_SAMPLES) := by
  have haux : ∀ (batches : List (List Sample)) (buf : List Sample),
      buf.length = N_SAMPLES → (∀ b ∈ batches, b.length ≤ N_SAMPLES) →
      (batches.foldl pumpTick buf).length = N_SAMPLES := by
    intro batches
    induction batches with
    | nil =>
      intro buf hb _
      simpa using hb
    | cons b bs ih =>
      intro buf hb hle
      have hb1 : (pumpTick buf b).length = N_SAMPLES := by
        rw [pumpTick_length buf b (by rw [hb]; exact hle b (List.mem_cons_self b bs))]
        exact hb
      exact ih (pumpTick buf b) hb1 (fun b2 hb2 => hle b2 (List.mem_cons_of_mem b hb2))
  refine ⟨primedBuffer_length, ?_,
    fun batches h => haux batches primedBuffer primedBuffer_length h⟩
  intro x hx
  rw [primedBuffer] at hx
  rcases List.mem_map.mp hx with ⟨t, ht, rfl⟩
  exact ⟨primedTime_neg t ht, rfl⟩

/-- One drained batch with a single sample, used as a witness input. -/
def oneBatch : List (List Sample) := [[{ t := 1/100, v := 1 }]]

/-- Witness for C7 at a concrete batch sequence. -/
theorem sampleBuffer_length_invariant_witness :
    (∀ b ∈ oneBatch, b.length ≤ N_SAMPLES) ∧
    (oneBatch.foldl pumpTick primedBuffer).length = N_SAMPLES :=
  ⟨by decide, sampleBuffer_length_invariant.2.2 oneBatch (by decide)⟩

/-- Five ordered samples (0.01, 1.0) ... (0.05, 5.0) of the spec
scenario. -/
def fiveSamples : List Sample :=
  [{ t := 1/100, v := 1 }, { t := 2/100, v := 2 }, { t := 3/100, v := 3 },
   { t := 4/100, v := 4 }, { t := 5/100, v := 5 }]

/-- C8: a pump tick that drains an ordered nonempty batch of M samples,
M at most the buffer length, drops exactly the M oldest entries, keeps
the remaining entries in their prior order and appends the batch in its
given order; concretely, after draining the five samples
(0.01, 1.0) ... (0.05, 5.0) into the primed buffer, the last five
entries equal those samples in order. -/
theorem sampleBuffer_push_drops_oldest :
    (∀ (buf d : List Sample), 0 < d.length → d.length ≤ buf.length →
      pumpTick buf d = buf.drop d.length ++ d) ∧
    (pumpTick primedBuffer fiveSamples).drop (N_SAMPLES - 5) = fiveSamples := by
  refine ⟨pumpTick_drop_append, ?_⟩
  have h2 : fiveSamples.length ≤ primedBuffer.length := by
    rw [primedBuffer_length]; decide
  rw [pumpTick_drop_append primedBuffer fiveSamples (by decide) h2]
  have hl : (primedBuffer.drop fiveSamples.length).length = N_SAMPLES - 5 := by
    rw [List.length_drop, primedBuffer_length]
    rfl
  rw [← hl, List.drop_left]

/-- Witness for C8 at a concrete buffer and batch. -/
theorem sampleBuffer_push_drops_oldest_witness :
    0 < fiveSamples.length ∧ fiveSamples.length ≤ primedBuffer.length ∧
    pumpTick primedBuffer fiveSamples = primedBuffer.drop fiveSamples.length ++ fiveSamples :=
  ⟨by decide, by rw [primedBuffer_length]; decide,
    sampleBuffer_push_drops_oldest.1 primedBuffer fiveSamples (by decide)
      (by rw [primedBuffer_length]; decide)⟩

/-- Oracle for a run where setting homing mode raises and the homing
start then also raises (the device was never enabled). -/
def doubleFailDev : Oracle := fun op =>
  match op with
  | DevOp.setModeHoming => some ("mode set failed")
  | DevOp.homingStart => some ("not enabled")
  | _ => none

/-- C1 failing input: when the setup step raises and the wait step then
also raises, HomingRunner.run emits its finished signal twice in the
same run, so two outcomes reach onHomingFinished instead of one; every
delivery still ends in the idle state. -/
theorem homingRunner_double_emit :
    (runnerRun doubleFailDev).1 =
      [errorTag ++ "mode set failed", errorTag ++ "not enabled"] ∧
    (runnerRun doubleFailDev).1.length ≠ 1 ∧
    (homingRun doubleFailDev initSup).state = AxisState.idle := by
  refine ⟨rfl, by decide, rfl⟩

/-- Oracle for a run where enabling the device raises but the remaining
operations succeed. -/
def enableFailDev : Oracle := fun op =>
  if op = DevOp.enable then some ("enable failed") else none

/-- C3 failing input: when the setup step fails, HomingRunner.run emits
the failure outcome but then still invokes homing_start and the blocking
homing_wait, because the first except clause does not return. -/
theorem homingRunner_setup_failure_still_waits :
    (runnerRun enableFailDev).1.head? = some (errorTag ++ "enable failed") ∧
    (runnerRun enableFailDev).2 =
      [DevOp.setModeHoming, DevOp.enable, DevOp.homingStart,
       DevOp.homingWait, DevOp.disable] := by
  refine ⟨rfl, rfl⟩

/-- C5: in any homing run in which the worker reports a failure
outcome, the device disable operation is invoked exactly once across
the whole run: the runner calls it once in its finally clause, the
completion handler issues no device call at all, and the supervisor
ends in idle after the deliveries. -/
theorem homingFailed_single_disable_and_idle :
    ∀ (d : Oracle) (s : SupState),
      (∃ m ∈ (runnerRun d).1, m ≠ finishedMsg) →
      (runnerRun d).2.count DevOp.disable = 1 ∧
      (∀ (m : String) (st : SupState), ((onHomingFinished m st).1).ops = st.ops) ∧
      (homingRun d s).state = AxisState.idle := by
  intro d s _
  refine ⟨?_, fun m st => rfl, ?_⟩
  · cases h1 : d DevOp.setModeHoming <;> cases h2 : d DevOp.enable <;>
      cases h3 : d DevOp.homingStart <;> cases h4 : d DevOp.homingWait <;>
      simp [runnerRun, h1, h2, h3, h4] <;> decide
  · cases h1 : d DevOp.setModeHoming <;> cases h2 : d DevOp.enable <;>
      cases h3 : d DevOp.homingStart <;> cases h4 : d DevOp.homingWait <;>
      simp [homingRun, runnerRun, h1, h2, h3, h4, on_btnHoming_clicked,
        onHomingFinished, setState]

/-- Oracle for a homing run that times out in homing_wait. -/
def timeoutDev : Oracle := fun op =>
  if op = DevOp.homingWait then some ("timeout") else none

/-- Witness for C5 at the timeout run. -/
theorem homingFailed_single_disable_and_idle_witness :
    (∃ m ∈ (runnerRun timeoutDev).1, m ≠ finishedMsg) ∧
    ((runnerRun timeoutDev).2.count DevOp.disable = 1 ∧
      (∀ (m : String) (st : SupState), ((onHomingFinished m st).1).ops = st.ops) ∧
      (homingRun timeoutDev initSup).state = AxisState.idle) :=
  ⟨⟨errorTag ++ "timeout", by decide, by decide⟩,
    homingFailed_single_disable_and_idle timeoutDev initSup
      ⟨errorTag ++ "timeout", by decide, by decide⟩⟩

/-- Helper: under an all-success oracle, one dispatched command moves
the machine state exactly as the code transition table says. -/
lemma dispatch_ok_state (c : ScopeCmd) (s : SupState) :
    ((dispatchCmd okDev s c).1).state = codeStep s.state c := by
  cases c with
  | requestHoming => rfl
  | togglePC =>
    by_cases hs : s.state = AxisState.idle <;>
      simp [dispatchCmd, on_btnPosition_clicked, hs, chainOk, callOp, enableScope,
        disableScope, setState, okDev, codeStep]
  | toggleVC =>
    by_cases hs : s.state = AxisState.idle <;>
      simp [dispatchCmd, on_btnVelocity_clicked, hs, chainOk, callOp, enableScope,
        disableScope, setState, okDev, codeStep]
  | homingComplete m => rfl

/-- Helper: running the handlers over a command list folds the code
transition table over the starting state. -/
lemma execCmds_codeStep (cmds : List ScopeCmd) :
    ∀ s : SupState, (execCmds okDev cmds s).state = cmds.foldl codeStep s.state := by
  induction cmds with
  | nil => intro s; rfl
  | cons c cs ih =>
    intro s
    have h1 : execCmds okDev (c :: cs) s =
        execCmds okDev cs ((dispatchCmd okDev s c).1) := rfl
    rw [h1, ih ((dispatchCmd okDev s c).1), List.foldl_cons, dispatch_ok_state]

/-- C2 counterexample: after togglePC from idle the state is position
control; a further homing request is accepted by the handler and moves
the state to homing, while the spec table says the request is rejected
and the state stays position control, so the folded table disagrees
with the handlers on this prefix. -/
theorem supervisor_table_counterexample :
    (execCmds okDev [ScopeCmd.togglePC, ScopeCmd.requestHoming] initSup).state ≠
      [ScopeCmd.togglePC, ScopeCmd.requestHoming].foldl specStep AxisState.idle := by
  decide

/-- C2 amended: for every finite command sequence the state after any
prefix equals the fold of the transition table the handlers actually
implement, starting at idle: a homing request always moves to homing
whatever the current state, each toggle moves from idle to its control
state and from every other state back to idle, and homing completion
always moves to idle. -/
theorem supervisor_follows_code_table :
    ∀ cmds : List ScopeCmd,
      (execCmds okDev cmds initSup).state = cmds.foldl codeStep AxisState.idle :=
  fun cmds => execCmds_codeStep cmds initSup

/-- C4 counterexample: onHomingFinished invoked while the state is
position control is not ignored: it moves the state to idle. -/
theorem onHomingFinished_not_guarded :
    ((onHomingFinished finishedMsg
      { state := AxisState.position, label := "", ops := [] }).1).state =
        AxisState.idle ∧
    AxisState.idle ≠ AxisState.position := by
  decide

/-- C4 amended: onHomingFinished has no guard on the current state: from
any state it records the outcome in the label and moves to idle, and a
second delivery of the same outcome right after the first leaves the
supervisor state exactly as after the first delivery. -/
theorem onHomingFinished_unconditional_idempotent :
    ∀ (m : String) (s : SupState),
      ((onHomingFinished m s).1).state = AxisState.idle ∧
      ((onHomingFinished m s).1).label = m ∧
      (onHomingFinished m ((onHomingFinished m s).1)).1 = (onHomingFinished m s).1 :=
  fun _ _ => ⟨rfl, rfl, rfl⟩

/-- Oracle where setting profile position mode raises a device
communication error. -/
def commErrDev : Oracle := fun op =>
  if op = DevOp.setModePP then some ("comm error") else none

/-- C6 counterexample: a device failure while entering position control
is not caught at the handler boundary: the exception propagates out of
on_btnPosition_clicked uncaught, and no status text is recorded. -/
theorem toggle_failure_uncaught :
    (on_btnPosition_clicked commErrDev initSup).2 = some ("comm error") ∧
    ((on_btnPosition_clicked commErrDev initSup).1).label = "" := by
  decide

/-- C6 amended: when any device operation fails during a toggle
transition the exception leaves the handler uncaught, but the recorded
machine state is unchanged from before the command, because setState
only runs after every operation of the branch has succeeded; so the
supervisor is never left in an unrecognized state. -/
theorem toggle_failure_leaves_prior_state :
    ∀ (d : Oracle) (s : SupState) (c : ScopeCmd) (e : String),
      (c = ScopeCmd.togglePC ∨ c = ScopeCmd.toggleVC) →
      (dispatchCmd d s c).2 = some e →
      ((dispatchCmd d s c).1).state = s.state := by
  intro d s c e hc h
  rcases hc with hc | hc
  · subst hc
    by_cases hs : s.state = AxisState.idle
    · revert h
      cases h1 : d DevOp.setModePP <;> cases h2 : d DevOp.setUnitsPosDeg <;>
        cases h3 : d DevOp.enable <;> cases h4 : d DevOp.pumpStart <;>
        cases h5 : d DevOp.pollerStart <;>
        simp [dispatchCmd, on_btnPosition_clicked, hs, enableScope, chainOk,
          callOp, setState, h1, h2, h3, h4, h5]
    · revert h
      cases h1 : d DevOp.pollerStop <;> cases h2 : d DevOp.pumpStop <;>
        cases h3 : d DevOp.disable <;>
        simp [dispatchCmd, on_btnPosition_clicked, hs, disableScope, chainOk,
          callOp, setState, h1, h2, h3]
  · subst hc
    by_cases hs : s.state = AxisState.idle
    · revert h
      cases h1 : d DevOp.setModePV <;> cases h2 : d DevOp.setUnitsVelRps <;>
        cases h3 : d DevOp.enable <;> cases h4 : d DevOp.pumpStart <;>
        cases h5 : d DevOp.pollerStart <;>
        simp [dispatchCmd, on_btnVelocity_clicked, hs, enableScope, chainOk,
          callOp, setState, h1, h2, h3, h4, h5]
    · revert h
      cases h1 : d DevOp.pollerStop <;> cases h2 : d DevOp.pumpStop <;>
        cases h3 : d DevOp.disable <;>
        simp [dispatchCmd, on_btnVelocity_clicked, hs, disableScope, chainOk,
          callOp, setState, h1, h2, h3]

/-- Witness for the amended C6 at a concrete failing device. -/
theorem toggle_failure_leaves_prior_state_witness :
    ((ScopeCmd.togglePC = ScopeCmd.togglePC ∨ ScopeCmd.togglePC = ScopeCmd.toggleVC) ∧
      (dispatchCmd commErrDev initSup ScopeCmd.togglePC).2 = some ("comm error")) ∧
    ((dispatchCmd commErrDev initSup ScopeCmd.togglePC).1).state = initSup.state :=
  ⟨⟨Or.inl rfl, by decide⟩,
    toggle_failure_leaves_prior_state commErrDev initSup ScopeCmd.togglePC
      ("comm error") (Or.inl rfl) (by decide)⟩

/-- C9 counterexample: in enableScope the pump timer start is recorded
strictly before the poller start, and in disableScope the poller stop is
recorded strictly before the pump timer stop, the reverse of the claimed
bracketing on both sides. -/
theorem pump_bracketing_counterexample :
    ((enableScope okDev initSup).1.ops.indexOf DevOp.pumpStart <
      (enableScope okDev initSup).1.ops.indexOf DevOp.pollerStart) ∧
    ((disableScope okDev initSup).1.ops.indexOf DevOp.pollerStop <
      (disableScope okDev initSup).1.ops.indexOf DevOp.pumpStop) := by
  decide

/-- C9 amended: from any supervisor state, with all operations
succeeding, enableScope appends exactly the pump start followed by the
poller start, and disableScope appends exactly the poller stop followed
by the pump stop: the poller activity is bracketed inside the pump
activity, not the other way round. -/
theorem pump_brackets_poller_reversed :
    ∀ s : SupState,
      (enableScope okDev s).1.ops = s.ops ++ [DevOp.pumpStart, DevOp.pollerStart] ∧
      (disableScope okDev s).1.ops = s.ops ++ [DevOp.pollerStop, DevOp.pumpStop] := by
  intro s
  constructor <;> simp [enableScope, disableScope, chainOk, callOp, okDev]

/-- C10: invoked in any state other than idle, with operations
succeeding, each toggle handler takes the disable branch: it stops the
poller and the pump timer, disables the device, raises nothing, and sets
the state to idle, instead of rejecting the command as a no-op. -/
theorem toggle_nonidle_takes_disable_path :
    ∀ s : SupState, s.state ≠ AxisState.idle →
      (((on_btnPosition_clicked okDev s).1).state = AxisState.idle ∧
        ((on_btnPosition_clicked okDev s).1).ops =
          s.ops ++ [DevOp.pollerStop, DevOp.pumpStop, DevOp.disable] ∧
        (on_btnPosition_clicked okDev s).2 = none) ∧
      (((on_btnVelocity_clicked okDev s).1).state = AxisState.idle ∧
        ((on_btnVelocity_clicked okDev s).1).ops =
          s.ops ++ [DevOp.pollerStop, DevOp.pumpStop, DevOp.disable] ∧
        (on_btnVelocity_clicked okDev s).2 = none) := by
  intro s h
  constructor <;>
    simp [on_btnPosition_clicked, on_btnVelocity_clicked, h, disableScope,
      chainOk, callOp, setState, okDev]

/-- Supervisor state in velocity control with an empty trace, a witness
input. -/
def velSup : SupState := { state := AxisState.velocity, label := "", ops := [] }

/-- Witness for C10 at the velocity control state. -/
theorem toggle_nonidle_takes_disable_path_witness :
    velSup.state ≠ AxisState.idle ∧
    ((((on_btnPosition_clicked okDev velSup).1).state = AxisState.idle ∧
        ((on_btnPosition_clicked okDev velSup).1).ops =
          velSup.ops ++ [DevOp.pollerStop, DevOp.pumpStop, DevOp.disable] ∧
        (on_btnPosition_clicked okDev velSup).2 = none) ∧
      (((on_btnVelocity_clicked okDev velSup).1).state = AxisState.idle ∧
        ((on_btnVelocity_clicked okDev velSup).1).ops =
          velSup.ops ++ [DevOp.pollerStop, DevOp.pumpStop, DevOp.disable] ∧
        (on_btnVelocity_clicked okDev velSup).2 = none)) :=
  ⟨by decide, toggle_nonidle_takes_disable_path velSup (by decide)⟩
